import Mathlib

/-!
Shallow embedding of the gateway-failover controller (main.go, plus the
duplicate gateway-resolution file src/unnamed/part_000).

External boundaries (the kernel routing table via netlink, the ping
subprocess, the filesystem, the dhcpcd subprocess, and netip.ParseAddr from
the Go standard library) are modelled as an explicit environment record.
Effects on those boundaries (route deletes/adds, decision log lines,
backend invocations) are returned as explicit traces so that claims about
"which calls were issued" can be stated and proved.
-/

namespace GatewayFailover

/-- Go net.Interface, restricted to the fields the program reads
(Name and Index). -/
structure Iface where
  name : String
  index : Nat
  deriving DecidableEq

/-- Go netip.Addr, modelled abstractly as its byte representation.
The program never inspects an address beyond passing it around
(AsSlice at the netlink boundary), so the representation is opaque. -/
structure Addr where
  bytes : List Nat
  deriving DecidableEq

/-- A netlink.Route as constructed/consumed by the program: destination
CIDR, link index, gateway (the fields main.go sets). -/
structure RouteSpec where
  dst : String
  linkIndex : Nat
  gw : Addr
  deriving DecidableEq

/-- The destination main.go keeps in the package-level defaultDst
variable, from net.ParseCIDR of the 0.0.0.0/0 literal. -/
def defaultDst : String := "0.0.0.0/0"

/-- A route returned by netlink.RouteGet; the program only reads
LinkIndex of the first entry. -/
structure NlRoute where
  linkIndex : Nat
  deriving DecidableEq

/-- A mutation issued against the kernel routing table:
netlink.RouteDel or netlink.RouteAdd with the given route. -/
inductive Mutation where
  | del (spec : RouteSpec)
  | add (spec : RouteSpec)
  deriving DecidableEq

/-- Log lines emitted by doCheckOnce / switchDefaultRoute, structured.
The four decision lines are distinguished from the best-effort delete
error line. -/
inductive LogEntry where
  | errRemovingOldRoute (msg : String)
  deriving DecidableEq

/-- The switch decision logged each cycle by doCheckOnce
(log.Printf lines in the four branches). -/
inductive Decision where
  | switchBackupToPrimary
  | onPrimaryNothing
  | switchPrimaryToBackup
  | onBackupNothing
  deriving DecidableEq

/-- Errors produced inside getDefaultRouteInterface, by provenance:
the netlink.RouteGet error returned as-is, the
fmt.Errorf("no routes to %v", dst) error, and the
fmt.Errorf("looking up link index %d: %w", ...) wrap of the
net.InterfaceByIndex error. -/
inductive InspectErr where
  | routeGetFailed (msg : String)
  | noRoutes
  | linkIndexLookup (idx : Nat) (msg : String)
  deriving DecidableEq

/-- The error value held by the `err` variable of doCheckOnce, by
provenance: an inspection error (returned early), the ping process
error from cmd.Run (which the code discards via `err = nil`), or a
netlink.RouteAdd error propagated out of switchDefaultRoute. -/
inductive GoErr where
  | inspect (e : InspectErr)
  | ping
  | install (msg : String)
  deriving DecidableEq

/-- The kernel/OS environment a single check cycle runs against:
results of the boundary calls that doCheckOnce and its callees make.
pingResult is the outcome of `ping -I <primary> -c1 <check-ip>`
(none = exit status 0). routeGetResult models netlink.RouteGet for
the fixed destination 8.8.8.8; ifaceByIndex models
net.InterfaceByIndex; routeDel/routeAdd give the error outcome of the
corresponding netlink call on a given route (none = success). -/
structure KEnv where
  routeGetResult : Except String (List NlRoute)
  ifaceByIndex : Nat → Except String Iface
  pingResult : Option String
  routeDel : RouteSpec → Option String
  routeAdd : RouteSpec → Option String

/-- getDefaultRouteInterface from main.go: netlink.RouteGet on the fixed
destination, fail if the route list is empty, look up the link index of
the first route, return the name of that interface. -/
def getDefaultRouteInterface (env : KEnv) : Except InspectErr String :=
  match env.routeGetResult with
  | .error msg => .error (.routeGetFailed msg)
  | .ok routes =>
    match routes with
    | [] => .error .noRoutes
    | r :: _ =>
      match env.ifaceByIndex r.linkIndex with
      | .error msg => .error (.linkIndexLookup r.linkIndex msg)
      | .ok iface => .ok iface.name

/-- Result of switchDefaultRoute: the returned error (the RouteAdd
outcome), the mutations issued, and the log lines emitted. -/
structure SwitchResult where
  err : Option String
  muts : List Mutation
  logs : List LogEntry
  deriving DecidableEq

/-- switchDefaultRoute from main.go: RouteDel the old (dev, gw) default
route, log (and otherwise ignore) a delete error, then RouteAdd the new
(dev, gw) default route and return its outcome. -/
def switchDefaultRoute (env : KEnv) (oldDev : Iface) (oldGw : Addr)
    (newDev : Iface) (newGw : Addr) : SwitchResult :=
  let delSpec : RouteSpec := ⟨defaultDst, oldDev.index, oldGw⟩
  let delErr := env.routeDel delSpec
  let delLogs : List LogEntry :=
    match delErr with
    | some msg => [.errRemovingOldRoute msg]
    | none => []
  let addSpec : RouteSpec := ⟨defaultDst, newDev.index, newGw⟩
  let addErr := env.routeAdd addSpec
  { err := addErr
    muts := [.del delSpec, .add addSpec]
    logs := delLogs }

/-- An invocation of switchDefaultRoute, as observed by doCheckOnce:
(old dev, old gw, new dev, new gw). -/
structure SwitchCall where
  oldDev : Iface
  oldGw : Addr
  newDev : Iface
  newGw : Addr
  deriving DecidableEq

/-- Result of one doCheckOnce cycle: the returned error, the
switchDefaultRoute invocations made, the route mutations issued, the
decision log lines, and the other log lines. -/
structure CheckResult where
  err : Option GoErr
  switchCalls : List SwitchCall
  muts : List Mutation
  decisions : List Decision
  logs : List LogEntry
  deriving DecidableEq

/-- doCheckOnce from main.go: inspect the current default-route
interface (returning its error on failure), run one ping over the
primary interface, and reconcile: on ping success switch backup→primary
iff the current interface is the backup; on ping failure discard the
ping error (`err = nil`) and switch primary→backup iff the current
interface is the primary; the switch is skipped when dryRun is set. -/
def doCheckOnce (env : KEnv) (dryRun : Bool) (primary : Iface)
    (primaryGw : Addr) (backup : Iface) (backupGw : Addr) : CheckResult :=
  match getDefaultRouteInterface env with
  | .error e => ⟨some (.inspect e), [], [], [], []⟩
  | .ok currentGateway =>
    match env.pingResult with
    | none =>
      if currentGateway = backup.name then
        if !dryRun then
          let s := switchDefaultRoute env backup backupGw primary primaryGw
          ⟨s.err.map GoErr.install, [⟨backup, backupGw, primary, primaryGw⟩],
            s.muts, [.switchBackupToPrimary], s.logs⟩
        else
          ⟨none, [], [], [.switchBackupToPrimary], []⟩
      else
        ⟨none, [], [], [.onPrimaryNothing], []⟩
    | some _pingErr =>
      if currentGateway = primary.name then
        if !dryRun then
          let s := switchDefaultRoute env primary primaryGw backup backupGw
          ⟨s.err.map GoErr.install, [⟨primary, primaryGw, backup, backupGw⟩],
            s.muts, [.switchPrimaryToBackup], s.logs⟩
        else
          ⟨none, [], [], [.switchPrimaryToBackup], []⟩
      else
        ⟨none, [], [], [.onBackupNothing], []⟩

/-- Errors produced during gateway resolution, by provenance: the
os.Open error on the lease file, a netip.ParseAddr error on a found
value, the "ROUTER not found in lease file" error, the exec error from
`dhcpcd -U`, the "routers not found in dhcpcd output" error, and the
"unimplemented" error when neither backend flag is set. -/
inductive GwErr where
  | openFailed (msg : String)
  | parseFailed (msg : String)
  | routerNotFound
  | execFailed (msg : String)
  | routersNotFound
  | unimplemented
  deriving DecidableEq

/-- An invocation of the external boundary of an autodetection backend:
opening the per-index lease file, or executing `dhcpcd -U <name>`. -/
inductive BackendCall where
  | leaseOpen (idx : Nat)
  | dhcpcdExec (ifname : String)
  deriving DecidableEq

/-- The environment gateway resolution runs against: netip.ParseAddr
from the Go standard library (deterministic but treated as a boundary:
its result, success or the error message, per input string), the lease
file at /run/systemd/netif/leases/<index> (open error or its lines),
the output of `dhcpcd -U <name>` (exec error or its lines), and the
two backend-selector flags. -/
structure GwEnv where
  parseAddr : String → Except String Addr
  leaseOpen : Nat → Except String (List String)
  dhcpcdOutput : String → Except String (List String)
  systemdNetworkd : Bool
  dhcpcd : Bool

/-- Go strings.HasPrefix(s, pre), on the character lists of the two
strings (the Lean String primitives are byte-position-based and do not
evaluate in proofs). -/
def strStartsWith (s pre : String) : Bool :=
  pre.data.isPrefixOf s.data

/-- Splits a character list around the first occurrence of the
separator character. -/
def cutChar (sep : Char) : List Char → Option (List Char × List Char)
  | [] => none
  | c :: rest =>
    if c = sep then some ([], rest)
    else (cutChar sep rest).map fun p => (c :: p.1, p.2)

/-- Go strings.Cut(s, sep) for the single-character separators the
program uses ("="): the text before and after the first occurrence of
sep, or none when sep does not occur in s. -/
def cut (s : String) (sep : Char) : Option (String × String) :=
  match cutChar sep s.data with
  | some (a, b) => some (⟨a⟩, ⟨b⟩)
  | none => none

/-- The scanner loop of getGatewaySystemdNetworkd from main.go: skip
lines starting with "#", skip lines without "=", and on the first line
whose key is ROUTER return netip.ParseAddr of its value; error when
the lines run out. -/
def scanLease (env : GwEnv) : List String → Except GwErr Addr
  | [] => .error .routerNotFound
  | line :: rest =>
    if strStartsWith line "#" then scanLease env rest
    else
      match cut line '=' with
      | none => scanLease env rest
      | some (key, value) =>
        if key = "ROUTER" then (env.parseAddr value).mapError GwErr.parseFailed
        else scanLease env rest

/-- getGatewaySystemdNetworkd from main.go: open the lease file keyed
by the interface index (propagating the open error) and scan its
lines; the lease-file open is recorded as a backend call. -/
def getGatewaySystemdNetworkd (env : GwEnv) (iface : Iface) :
    Except GwErr Addr × List BackendCall :=
  (match env.leaseOpen iface.index with
   | .error msg => .error (.openFailed msg)
   | .ok lines => scanLease env lines,
   [.leaseOpen iface.index])

/-- The scanner loop of getGatewayDhcpcd from main.go: skip lines
without "=" (no comment skipping here), and on the first line whose
key is "routers" return netip.ParseAddr of its value. -/
def scanDhcpcd (env : GwEnv) : List String → Except GwErr Addr
  | [] => .error .routersNotFound
  | line :: rest =>
    match cut line '=' with
    | none => scanDhcpcd env rest
    | some (key, value) =>
      if key = "routers" then (env.parseAddr value).mapError GwErr.parseFailed
      else scanDhcpcd env rest

/-- getGatewayDhcpcd from main.go: run `dhcpcd -U <name>` (propagating
an exec error) and scan its output lines; the exec is recorded as a
backend call. -/
def getGatewayDhcpcd (env : GwEnv) (iface : Iface) :
    Except GwErr Addr × List BackendCall :=
  (match env.dhcpcdOutput iface.name with
   | .error msg => .error (.execFailed msg)
   | .ok lines => scanDhcpcd env lines,
   [.dhcpcdExec iface.name])

/-- getGateway from main.go: dispatch on the backend-selector flags,
erroring with "unimplemented" when neither is set. -/
def getGateway (env : GwEnv) (iface : Iface) :
    Except GwErr Addr × List BackendCall :=
  if env.systemdNetworkd then getGatewaySystemdNetworkd env iface
  else if env.dhcpcd then getGatewayDhcpcd env iface
  else (.error .unimplemented, [])

/-- parseOrGetGateway from main.go: when the explicit string is
non-empty and netip.ParseAddr accepts it, return that address with no
backend invocation; otherwise fall through to getGateway, propagating
its result. -/
def parseOrGetGateway (env : GwEnv) (val : String) (iface : Iface) :
    Except GwErr Addr × List BackendCall :=
  match (if val ≠ "" then some (env.parseAddr val) else none) with
  | some (.ok gw) => (.ok gw, [])
  | some (.error _) => getGateway env iface
  | none => getGateway env iface

namespace Part000

/-- The scanner loop of getGatewaySystemdNetworkd from
src/unnamed/part_000 (same text as the main.go loop). -/
def scanLease (env : GwEnv) : List String → Except GwErr Addr
  | [] => .error .routerNotFound
  | line :: rest =>
    if strStartsWith line "#" then scanLease env rest
    else
      match cut line '=' with
      | none => scanLease env rest
      | some (key, value) =>
        if key = "ROUTER" then (env.parseAddr value).mapError GwErr.parseFailed
        else scanLease env rest

/-- getGatewaySystemdNetworkd from src/unnamed/part_000. -/
def getGatewaySystemdNetworkd (env : GwEnv) (iface : Iface) :
    Except GwErr Addr × List BackendCall :=
  (match env.leaseOpen iface.index with
   | .error msg => .error (.openFailed msg)
   | .ok lines => Part000.scanLease env lines,
   [.leaseOpen iface.index])

/-- The scanner loop of getGatewayDhcpcd from src/unnamed/part_000. -/
def scanDhcpcd (env : GwEnv) : List String → Except GwErr Addr
  | [] => .error .routersNotFound
  | line :: rest =>
    match cut line '=' with
    | none => scanDhcpcd env rest
    | some (key, value) =>
      if key = "routers" then (env.parseAddr value).mapError GwErr.parseFailed
      else scanDhcpcd env rest

/-- getGatewayDhcpcd from src/unnamed/part_000. -/
def getGatewayDhcpcd (env : GwEnv) (iface : Iface) :
    Except GwErr Addr × List BackendCall :=
  (match env.dhcpcdOutput iface.name with
   | .error msg => .error (.execFailed msg)
   | .ok lines => Part000.scanDhcpcd env lines,
   [.dhcpcdExec iface.name])

/-- getGateway from src/unnamed/part_000. -/
def getGateway (env : GwEnv) (iface : Iface) :
    Except GwErr Addr × List BackendCall :=
  if env.systemdNetworkd then Part000.getGatewaySystemdNetworkd env iface
  else if env.dhcpcd then Part000.getGatewayDhcpcd env iface
  else (.error .unimplemented, [])

/-- parseOrGetGateway from src/unnamed/part_000. -/
def parseOrGetGateway (env : GwEnv) (val : String) (iface : Iface) :
    Except GwErr Addr × List BackendCall :=
  match (if val ≠ "" then some (env.parseAddr val) else none) with
  | some (.ok gw) => (.ok gw, [])
  | some (.error _) => Part000.getGateway env iface
  | none => Part000.getGateway env iface

end Part000

/-- The lease-file lines the scanner does not skip and recognises as
the router entry: not a comment line, and splitting on the first "="
yields the key ROUTER. Used to characterise which line of the file
getGatewaySystemdNetworkd answers from. -/
def isRouterLine (l : String) : Bool :=
  !strStartsWith l "#" &&
    (match cut l '=' with
     | some kv => kv.1 == "ROUTER"
     | none => false)

/-! Concrete fixtures for witness and counterexample theorems. -/

def wPrimary : Iface := ⟨"eth0", 1⟩

def wBackup : Iface := ⟨"wwan0", 2⟩

def wPGw : Addr := ⟨[192, 168, 1, 1]⟩

def wBGw : Addr := ⟨[10, 0, 0, 1]⟩

/-- Kernel fixture: the default route is on the backup interface, the
ping over the primary succeeds, RouteDel succeeds and RouteAdd fails
(so the kernel state genuinely persists across cycles). -/
def envOnBackupAddFails : KEnv where
  routeGetResult := .ok [⟨2⟩]
  ifaceByIndex := fun i =>
    if i = 2 then .ok wBackup
    else if i = 1 then .ok wPrimary
    else .error "no such interface"
  pingResult := none
  routeDel := fun _ => none
  routeAdd := fun _ => some "permission denied"

/-- Kernel fixture: the default route is on the primary interface and
the ping over the primary succeeds — the agreeing, no-op cycle. -/
def envOnPrimaryOk : KEnv where
  routeGetResult := .ok [⟨1⟩]
  ifaceByIndex := fun i =>
    if i = 2 then .ok wBackup
    else if i = 1 then .ok wPrimary
    else .error "no such interface"
  pingResult := none
  routeDel := fun _ => none
  routeAdd := fun _ => none

/-- Kernel fixture: netlink.RouteGet reports zero candidate routes. -/
def envNoRoutes : KEnv where
  routeGetResult := .ok []
  ifaceByIndex := fun _ => .error "no such interface"
  pingResult := none
  routeDel := fun _ => none
  routeAdd := fun _ => none

/-- Kernel fixture: the link index of the first candidate route no longer
maps to a live interface. -/
def envBadIndex : KEnv where
  routeGetResult := .ok [⟨5⟩]
  ifaceByIndex := fun _ => .error "no interface with given index"
  pingResult := none
  routeDel := fun _ => none
  routeAdd := fun _ => none

/-- Kernel fixture: RouteDel fails (the old route is already gone)
while RouteAdd succeeds. -/
def envDelFails : KEnv where
  routeGetResult := .ok [⟨2⟩]
  ifaceByIndex := fun i =>
    if i = 2 then .ok wBackup
    else if i = 1 then .ok wPrimary
    else .error "no such interface"
  pingResult := none
  routeDel := fun _ => some "no such process"
  routeAdd := fun _ => none

/-- A concrete stand-in for netip.ParseAddr: accepts two literals used
by the fixtures and rejects everything else. -/
def parseAddrFix : String → Except String Addr := fun s =>
  if s = "1.2.3.4" then .ok ⟨[1, 2, 3, 4]⟩
  else if s = "10.0.0.1" then .ok ⟨[10, 0, 0, 1]⟩
  else .error "ParseAddr: unable to parse IP"

/-- Gateway fixture: systemd-networkd backend selected; the lease file
for interface index 2 holds a comment, an unrelated pair, a separator-free
line, and then two ROUTER entries. -/
def gwEnvLease : GwEnv where
  parseAddr := parseAddrFix
  leaseOpen := fun i =>
    if i = 2 then .ok ["# server address", "FOO=bar", "junk", "ROUTER=1.2.3.4", "ROUTER=9.9.9.9"]
    else .error "open /run/systemd/netif/leases: no such file or directory"
  dhcpcdOutput := fun _ => .error "exec: dhcpcd: not found"
  systemdNetworkd := true
  dhcpcd := false

/-- Gateway fixture: the lease file opens but contains no ROUTER key. -/
def gwEnvLeaseNoRouter : GwEnv where
  parseAddr := parseAddrFix
  leaseOpen := fun _ => .ok ["# lease", "ADDRESS=10.0.0.9", "junk"]
  dhcpcdOutput := fun _ => .error "exec: dhcpcd: not found"
  systemdNetworkd := true
  dhcpcd := false

/-! ## Helper lemmas -/

theorem switchDefaultRoute_err (env : KEnv) (oldDev : Iface) (oldGw : Addr)
    (newDev : Iface) (newGw : Addr) :
    (switchDefaultRoute env oldDev oldGw newDev newGw).err =
      env.routeAdd ⟨defaultDst, newDev.index, newGw⟩ := rfl

theorem switchDefaultRoute_muts (env : KEnv) (oldDev : Iface) (oldGw : Addr)
    (newDev : Iface) (newGw : Addr) :
    (switchDefaultRoute env oldDev oldGw newDev newGw).muts =
      [.del ⟨defaultDst, oldDev.index, oldGw⟩,
       .add ⟨defaultDst, newDev.index, newGw⟩] := rfl

theorem doCheckOnce_inspectErr (env : KEnv) (dryRun : Bool) (primary : Iface)
    (primaryGw : Addr) (backup : Iface) (backupGw : Addr) (ie : InspectErr)
    (hins : getDefaultRouteInterface env = .error ie) :
    doCheckOnce env dryRun primary primaryGw backup backupGw =
      ⟨some (.inspect ie), [], [], [], []⟩ := by
  simp [doCheckOnce, hins]

theorem doCheckOnce_pingOk_onBackup (env : KEnv) (primary : Iface)
    (primaryGw : Addr) (backup : Iface) (backupGw : Addr) (cur : String)
    (hins : getDefaultRouteInterface env = .ok cur)
    (hping : env.pingResult = none) (hb : cur = backup.name) :
    doCheckOnce env false primary primaryGw backup backupGw =
      ⟨(switchDefaultRoute env backup backupGw primary primaryGw).err.map GoErr.install,
       [⟨backup, backupGw, primary, primaryGw⟩],
       (switchDefaultRoute env backup backupGw primary primaryGw).muts,
       [.switchBackupToPrimary],
       (switchDefaultRoute env backup backupGw primary primaryGw).logs⟩ := by
  simp [doCheckOnce, hins, hping, hb]

theorem doCheckOnce_pingOk_onBackup_dry (env : KEnv) (primary : Iface)
    (primaryGw : Addr) (backup : Iface) (backupGw : Addr) (cur : String)
    (hins : getDefaultRouteInterface env = .ok cur)
    (hping : env.pingResult = none) (hb : cur = backup.name) :
    doCheckOnce env true primary primaryGw backup backupGw =
      ⟨none, [], [], [.switchBackupToPrimary], []⟩ := by
  simp [doCheckOnce, hins, hping, hb]

theorem doCheckOnce_pingOk_notBackup (env : KEnv) (dryRun : Bool) (primary : Iface)
    (primaryGw : Addr) (backup : Iface) (backupGw : Addr) (cur : String)
    (hins : getDefaultRouteInterface env = .ok cur)
    (hping : env.pingResult = none) (hb : ¬cur = backup.name) :
    doCheckOnce env dryRun primary primaryGw backup backupGw =
      ⟨none, [], [], [.onPrimaryNothing], []⟩ := by
  simp [doCheckOnce, hins, hping, hb]

theorem doCheckOnce_pingFail_onPrimary (env : KEnv) (primary : Iface)
    (primaryGw : Addr) (backup : Iface) (backupGw : Addr) (cur m : String)
    (hins : getDefaultRouteInterface env = .ok cur)
    (hping : env.pingResult = some m) (hp : cur = primary.name) :
    doCheckOnce env false primary primaryGw backup backupGw =
      ⟨(switchDefaultRoute env primary primaryGw backup backupGw).err.map GoErr.install,
       [⟨primary, primaryGw, backup, backupGw⟩],
       (switchDefaultRoute env primary primaryGw backup backupGw).muts,
       [.switchPrimaryToBackup],
       (switchDefaultRoute env primary primaryGw backup backupGw).logs⟩ := by
  simp [doCheckOnce, hins, hping, hp]

theorem doCheckOnce_pingFail_onPrimary_dry (env : KEnv) (primary : Iface)
    (primaryGw : Addr) (backup : Iface) (backupGw : Addr) (cur m : String)
    (hins : getDefaultRouteInterface env = .ok cur)
    (hping : env.pingResult = some m) (hp : cur = primary.name) :
    doCheckOnce env true primary primaryGw backup backupGw =
      ⟨none, [], [], [.switchPrimaryToBackup], []⟩ := by
  simp [doCheckOnce, hins, hping, hp]

theorem doCheckOnce_pingFail_notPrimary (env : KEnv) (dryRun : Bool) (primary : Iface)
    (primaryGw : Addr) (backup : Iface) (backupGw : Addr) (cur m : String)
    (hins : getDefaultRouteInterface env = .ok cur)
    (hping : env.pingResult = some m) (hp : ¬cur = primary.name) :
    doCheckOnce env dryRun primary primaryGw backup backupGw =
      ⟨none, [], [], [.onBackupNothing], []⟩ := by
  simp [doCheckOnce, hins, hping, hp]

/-! ## Claims -/

/-- C1: For every check cycle in which route inspection succeeds and
dry-run is disabled, the Route Switcher is invoked with
(backup, primary) exactly when the ping over the primary interface
succeeds and the inspector reports the backup interface as active; it
is invoked with (primary, backup) exactly when the ping fails and the
inspector reports the primary interface as active; in every other
case (including an active route matching neither configured
interface) no route mutation is issued that cycle. -/
theorem c1_switch_decision (env : KEnv) (primary : Iface) (primaryGw : Addr)
    (backup : Iface) (backupGw : Addr) (cur : String)
    (hins : getDefaultRouteInterface env = .ok cur)
    (hname : primary.name ≠ backup.name) :
    ((doCheckOnce env false primary primaryGw backup backupGw).switchCalls =
        [⟨backup, backupGw, primary, primaryGw⟩] ↔
      env.pingResult = none ∧ cur = backup.name) ∧
    ((doCheckOnce env false primary primaryGw backup backupGw).switchCalls =
        [⟨primary, primaryGw, backup, backupGw⟩] ↔
      env.pingResult ≠ none ∧ cur = primary.name) ∧
    (¬(env.pingResult = none ∧ cur = backup.name) →
      ¬(env.pingResult ≠ none ∧ cur = primary.name) →
      (doCheckOnce env false primary primaryGw backup backupGw).switchCalls = [] ∧
      (doCheckOnce env false primary primaryGw backup backupGw).muts = []) := by
  have hbp : backup ≠ primary := fun h => hname (congrArg Iface.name h).symm
  have hpb : primary ≠ backup := fun h => hname (congrArg Iface.name h)
  unfold doCheckOnce
  rw [hins]
  cases hping : env.pingResult with
  | none =>
    by_cases hb : cur = backup.name <;>
      simp_all [switchDefaultRoute]
  | some msg =>
    by_cases hp : cur = primary.name <;>
      simp_all [switchDefaultRoute]

/-- C1 witness: against the fixture where the route is on the backup
and the ping succeeds, the cycle invokes the switcher with
(backup, primary). -/
theorem c1_switch_decision_witness :
    (doCheckOnce envOnBackupAddFails false wPrimary wPGw wBackup wBGw).switchCalls =
      [⟨wBackup, wBGw, wPrimary, wPGw⟩] :=
  ((c1_switch_decision envOnBackupAddFails wPrimary wPGw wBackup wBGw "wwan0"
      rfl (by decide)).1).mpr ⟨rfl, rfl⟩

/-- C2: Every Route Switcher invocation first attempts the delete of
the old default route and then, regardless of how the delete went,
the add of the new default route; the add outcome is what the
function returns, and a delete failure is only logged. -/
theorem c2_switch_order (env : KEnv) (oldDev : Iface) (oldGw : Addr)
    (newDev : Iface) (newGw : Addr) :
    (switchDefaultRoute env oldDev oldGw newDev newGw).muts =
      [.del ⟨defaultDst, oldDev.index, oldGw⟩,
       .add ⟨defaultDst, newDev.index, newGw⟩] ∧
    (switchDefaultRoute env oldDev oldGw newDev newGw).err =
      env.routeAdd ⟨defaultDst, newDev.index, newGw⟩ ∧
    ∀ msg, env.routeDel ⟨defaultDst, oldDev.index, oldGw⟩ = some msg →
      (switchDefaultRoute env oldDev oldGw newDev newGw).logs =
        [.errRemovingOldRoute msg] := by
  refine ⟨rfl, rfl, fun msg h => ?_⟩
  simp [switchDefaultRoute, h]

/-- C2 witness: with a failing delete and a succeeding add, the delete
error is logged, both mutations are issued in order, and no error is
returned. -/
theorem c2_switch_order_witness :
    (switchDefaultRoute envDelFails wBackup wBGw wPrimary wPGw).logs =
      [.errRemovingOldRoute "no such process"] :=
  (c2_switch_order envDelFails wBackup wBGw wPrimary wPGw).2.2 "no such process" rfl

/-- C6: The Route Inspector fails with the no-routes error when the
kernel reports zero candidate routes, fails with the link-index
lookup error when the link index of the first candidate route does not map
to a live interface, and otherwise returns the name of the interface
bound to the link index of the first candidate route. -/
theorem c6_route_inspector (env : KEnv) :
    (env.routeGetResult = .ok [] →
        getDefaultRouteInterface env = .error .noRoutes) ∧
    (∀ r rs msg, env.routeGetResult = .ok (r :: rs) →
        env.ifaceByIndex r.linkIndex = .error msg →
        getDefaultRouteInterface env = .error (.linkIndexLookup r.linkIndex msg)) ∧
    (∀ r rs ifc, env.routeGetResult = .ok (r :: rs) →
        env.ifaceByIndex r.linkIndex = .ok ifc →
        getDefaultRouteInterface env = .ok ifc.name) := by
  refine ⟨fun h => ?_, fun r rs msg h1 h2 => ?_, fun r rs ifc h1 h2 => ?_⟩
  · simp [getDefaultRouteInterface, h]
  · simp [getDefaultRouteInterface, h1, h2]
  · simp [getDefaultRouteInterface, h1, h2]

/-- C6 witness: the three inspector outcomes at concrete kernel
fixtures: zero routes, a dead link index, and a live route on the
primary interface. -/
theorem c6_route_inspector_witness :
    getDefaultRouteInterface envNoRoutes = .error .noRoutes ∧
    getDefaultRouteInterface envBadIndex =
      .error (.linkIndexLookup 5 "no interface with given index") ∧
    getDefaultRouteInterface envOnPrimaryOk = .ok "eth0" :=
  ⟨(c6_route_inspector envNoRoutes).1 rfl,
   (c6_route_inspector envBadIndex).2.1 ⟨5⟩ [] "no interface with given index" rfl rfl,
   (c6_route_inspector envOnPrimaryOk).2.2 ⟨1⟩ [] wPrimary rfl rfl⟩

/-- C7: With dry-run enabled, every check cycle logs the same switch
decision as the same cycle in normal mode, but issues zero route
mutations and never invokes the Route Switcher. -/
theorem c7_dry_run_frame (env : KEnv) (primary : Iface) (primaryGw : Addr)
    (backup : Iface) (backupGw : Addr) :
    (doCheckOnce env true primary primaryGw backup backupGw).decisions =
      (doCheckOnce env false primary primaryGw backup backupGw).decisions ∧
    (doCheckOnce env true primary primaryGw backup backupGw).muts = [] ∧
    (doCheckOnce env true primary primaryGw backup backupGw).switchCalls = [] := by
  unfold doCheckOnce
  cases getDefaultRouteInterface env with
  | error e => simp
  | ok cur =>
    cases env.pingResult with
    | none => by_cases hb : cur = backup.name <;> simp [hb]
    | some m => by_cases hp : cur = primary.name <;> simp [hp]

/-- C8: A probe failure is never surfaced as a check-cycle error: any
error returned by doCheckOnce is either the route-inspection error or
a RouteAdd failure of a route the cycle actually tried to install —
never the ping error. -/
theorem c8_probe_error_never_surfaced (env : KEnv) (dryRun : Bool)
    (primary : Iface) (primaryGw : Addr) (backup : Iface) (backupGw : Addr)
    (e : GoErr)
    (h : (doCheckOnce env dryRun primary primaryGw backup backupGw).err = some e) :
    e ≠ .ping ∧
    ((∃ ie, e = .inspect ie ∧ getDefaultRouteInterface env = .error ie) ∨
     (∃ spec msg, e = .install msg ∧ env.routeAdd spec = some msg ∧
        Mutation.add spec ∈ (doCheckOnce env dryRun primary primaryGw backup backupGw).muts)) := by
  cases hins : getDefaultRouteInterface env with
  | error ie =>
    rw [doCheckOnce_inspectErr env dryRun primary primaryGw backup backupGw ie hins] at h
    simp at h
    subst h
    exact ⟨by simp, Or.inl ⟨ie, rfl, rfl⟩⟩
  | ok cur =>
    cases hping : env.pingResult with
    | none =>
      by_cases hb : cur = backup.name
      · cases dryRun with
        | true =>
          rw [doCheckOnce_pingOk_onBackup_dry env primary primaryGw backup backupGw
            cur hins hping hb] at h
          simp at h
        | false =>
          rw [doCheckOnce_pingOk_onBackup env primary primaryGw backup backupGw
            cur hins hping hb] at h ⊢
          rw [switchDefaultRoute_err] at h
          simp at h
          obtain ⟨msg, hadd, he⟩ := h
          subst he
          refine ⟨by simp,
            Or.inr ⟨⟨defaultDst, primary.index, primaryGw⟩, msg, rfl, hadd, ?_⟩⟩
          rw [switchDefaultRoute_muts]
          simp
      · rw [doCheckOnce_pingOk_notBackup env dryRun primary primaryGw backup backupGw
          cur hins hping hb] at h
        simp at h
    | some m =>
      by_cases hp : cur = primary.name
      · cases dryRun with
        | true =>
          rw [doCheckOnce_pingFail_onPrimary_dry env primary primaryGw backup backupGw
            cur m hins hping hp] at h
          simp at h
        | false =>
          rw [doCheckOnce_pingFail_onPrimary env primary primaryGw backup backupGw
            cur m hins hping hp] at h ⊢
          rw [switchDefaultRoute_err] at h
          simp at h
          obtain ⟨msg, hadd, he⟩ := h
          subst he
          refine ⟨by simp,
            Or.inr ⟨⟨defaultDst, backup.index, backupGw⟩, msg, rfl, hadd, ?_⟩⟩
          rw [switchDefaultRoute_muts]
          simp
      · rw [doCheckOnce_pingFail_notPrimary env dryRun primary primaryGw backup backupGw
          cur m hins hping hp] at h
        simp at h

/-- C8 witness: against the fixture where the route is on the backup,
the ping succeeds and RouteAdd fails, the error of the cycle is the
RouteAdd failure of the attempted primary route, not a ping error. -/
theorem c8_probe_error_never_surfaced_witness :
    (doCheckOnce envOnBackupAddFails false wPrimary wPGw wBackup wBGw).err =
      some (.install "permission denied") ∧
    (GoErr.install "permission denied" ≠ .ping ∧
      ((∃ ie, GoErr.install "permission denied" = .inspect ie ∧
          getDefaultRouteInterface envOnBackupAddFails = .error ie) ∨
       (∃ spec msg, GoErr.install "permission denied" = .install msg ∧
          envOnBackupAddFails.routeAdd spec = some msg ∧
          Mutation.add spec ∈
            (doCheckOnce envOnBackupAddFails false wPrimary wPGw wBackup wBGw).muts))) :=
  ⟨rfl, c8_probe_error_never_surfaced envOnBackupAddFails false wPrimary wPGw
    wBackup wBGw (.install "permission denied") rfl⟩

/-- C3 counterexample: the claim fails as stated. Against a kernel
state where the route is on the backup, the ping over the primary
succeeds, and the RouteAdd fails (so the kernel state — probe outcome
and inspected active route — is unchanged across consecutive cycles),
each of the two cycles issues a delete and an add: four mutations
across the pair, not zero. -/
theorem c3_idempotence_counterexample :
    getDefaultRouteInterface envOnBackupAddFails = .ok "wwan0" ∧
    envOnBackupAddFails.pingResult = none ∧
    ((doCheckOnce envOnBackupAddFails false wPrimary wPGw wBackup wBGw).muts ++
      (doCheckOnce envOnBackupAddFails false wPrimary wPGw wBackup wBGw).muts).length = 4 ∧
    ¬((doCheckOnce envOnBackupAddFails false wPrimary wPGw wBackup wBGw).muts ++
      (doCheckOnce envOnBackupAddFails false wPrimary wPGw wBackup wBGw).muts = []) :=
  ⟨rfl, rfl, rfl, by decide⟩

/-- C3 (amended): two consecutive check cycles with an unchanged probe
outcome and an unchanged inspected active route, the first of which
issues no route mutation, issue zero route mutations across the two
cycles. -/
theorem c3_idempotence_amended (env1 env2 : KEnv) (dryRun : Bool)
    (primary : Iface) (primaryGw : Addr) (backup : Iface) (backupGw : Addr)
    (cur : String)
    (h1 : getDefaultRouteInterface env1 = .ok cur)
    (h2 : getDefaultRouteInterface env2 = .ok cur)
    (hping : env1.pingResult.isNone = env2.pingResult.isNone)
    (hfirst : (doCheckOnce env1 dryRun primary primaryGw backup backupGw).muts = []) :
    (doCheckOnce env1 dryRun primary primaryGw backup backupGw).muts ++
      (doCheckOnce env2 dryRun primary primaryGw backup backupGw).muts = [] := by
  rw [hfirst, List.nil_append]
  cases hp1 : env1.pingResult with
  | none =>
    have hp2 : env2.pingResult = none := by
      have h := hping.symm
      rw [hp1] at h
      simpa [Option.isNone_iff_eq_none] using h
    by_cases hb : cur = backup.name
    · cases dryRun with
      | true =>
        rw [doCheckOnce_pingOk_onBackup_dry env2 primary primaryGw backup backupGw
          cur h2 hp2 hb]
      | false =>
        rw [doCheckOnce_pingOk_onBackup env1 primary primaryGw backup backupGw
          cur h1 hp1 hb, switchDefaultRoute_muts] at hfirst
        simp at hfirst
    · rw [doCheckOnce_pingOk_notBackup env2 dryRun primary primaryGw backup backupGw
        cur h2 hp2 hb]
  | some m1 =>
    obtain ⟨m2, hp2⟩ : ∃ m2, env2.pingResult = some m2 := by
      rw [hp1] at hping
      cases hq : env2.pingResult with
      | none =>
        rw [hq] at hping
        simp at hping
      | some mm => exact ⟨mm, rfl⟩
    by_cases hp : cur = primary.name
    · cases dryRun with
      | true =>
        rw [doCheckOnce_pingFail_onPrimary_dry env2 primary primaryGw backup backupGw
          cur m2 h2 hp2 hp]
      | false =>
        rw [doCheckOnce_pingFail_onPrimary env1 primary primaryGw backup backupGw
          cur m1 h1 hp1 hp, switchDefaultRoute_muts] at hfirst
        simp at hfirst
    · rw [doCheckOnce_pingFail_notPrimary env2 dryRun primary primaryGw backup backupGw
        cur m2 h2 hp2 hp]

/-- C3 (amended) witness: two cycles against the agreeing fixture
(route on primary, ping succeeding) issue no mutation at all. -/
theorem c3_idempotence_amended_witness :
    (doCheckOnce envOnPrimaryOk false wPrimary wPGw wBackup wBGw).muts ++
      (doCheckOnce envOnPrimaryOk false wPrimary wPGw wBackup wBGw).muts = [] :=
  c3_idempotence_amended envOnPrimaryOk envOnPrimaryOk false wPrimary wPGw
    wBackup wBGw "eth0" rfl rfl rfl rfl

/-- C4: For every non-empty explicit gateway string that
netip.ParseAddr accepts, parseOrGetGateway returns exactly that
address and invokes no autodetection backend: no lease file is opened
and no external command is run. -/
theorem c4_explicit_gateway (env : GwEnv) (val : String) (iface : Iface) (a : Addr)
    (hval : val ≠ "") (hparse : env.parseAddr val = .ok a) :
    parseOrGetGateway env val iface = (.ok a, []) := by
  simp [parseOrGetGateway, hval, hparse]

/-- C4 witness: the explicit literal is returned unchanged with an
empty backend-call trace. -/
theorem c4_explicit_gateway_witness :
    parseOrGetGateway gwEnvLease "1.2.3.4" wBackup = (.ok ⟨[1, 2, 3, 4]⟩, []) :=
  c4_explicit_gateway gwEnvLease "1.2.3.4" wBackup ⟨[1, 2, 3, 4]⟩ (by decide) rfl

/-- C9: A non-empty explicit gateway string that netip.ParseAddr
rejects produces no parse error and no returned value of its own:
parseOrGetGateway behaves exactly as getGateway, the autodetection
path, so it fails only if autodetection fails. -/
theorem c9_invalid_explicit_falls_through (env : GwEnv) (val : String)
    (iface : Iface) (msg : String)
    (hval : val ≠ "") (hparse : env.parseAddr val = .error msg) :
    parseOrGetGateway env val iface = getGateway env iface := by
  simp [parseOrGetGateway, hval, hparse]

/-- C9 witness: an unparsable explicit string resolves exactly as the
autodetection path does. -/
theorem c9_invalid_explicit_falls_through_witness :
    parseOrGetGateway gwEnvLease "not-an-ip" wBackup = getGateway gwEnvLease wBackup :=
  c9_invalid_explicit_falls_through gwEnvLease "not-an-ip" wBackup
    "ParseAddr: unable to parse IP" (by decide) rfl

theorem scanLease_skip (env : GwEnv) (line : String) (rest : List String)
    (h : isRouterLine line = false) :
    scanLease env (line :: rest) = scanLease env rest := by
  unfold isRouterLine at h
  by_cases hsw : strStartsWith line "#"
  · simp [scanLease, hsw]
  · simp only [hsw] at h
    cases hcut : cut line '=' with
    | none => simp [scanLease, hsw, hcut]
    | some kv =>
      obtain ⟨k, v⟩ := kv
      rw [hcut] at h
      simp at h
      simp [scanLease, hsw, hcut, h]

theorem scanLease_hit (env : GwEnv) (line : String) (rest : List String)
    (h : isRouterLine line = true) :
    ∃ v, cut line '=' = some ("ROUTER", v) ∧
      scanLease env (line :: rest) = (env.parseAddr v).mapError GwErr.parseFailed := by
  unfold isRouterLine at h
  simp at h
  obtain ⟨hsw, hm⟩ := h
  cases hcut : cut line '=' with
  | none =>
    rw [hcut] at hm
    simp at hm
  | some kv =>
    obtain ⟨k, v⟩ := kv
    rw [hcut] at hm
    simp at hm
    subst hm
    exact ⟨v, rfl, by simp [scanLease, hsw, hcut]⟩

theorem scanLease_find_none (env : GwEnv) (lines : List String)
    (h : lines.find? isRouterLine = none) :
    scanLease env lines = .error .routerNotFound := by
  induction lines with
  | nil => rfl
  | cons line rest ih =>
    cases hl : isRouterLine line with
    | true =>
      rw [List.find?_cons_of_pos _ hl] at h
      cases h
    | false =>
      rw [List.find?_cons_of_neg _ (by simp [hl])] at h
      rw [scanLease_skip env line rest hl]
      exact ih h

theorem scanLease_find_some (env : GwEnv) (lines : List String) (l : String)
    (h : lines.find? isRouterLine = some l) :
    ∃ v, cut l '=' = some ("ROUTER", v) ∧
      scanLease env lines = (env.parseAddr v).mapError GwErr.parseFailed := by
  induction lines with
  | nil => cases h
  | cons line rest ih =>
    cases hl : isRouterLine line with
    | true =>
      rw [List.find?_cons_of_pos _ hl] at h
      injection h with h2
      subst h2
      exact scanLease_hit env line rest hl
    | false =>
      rw [List.find?_cons_of_neg _ (by simp [hl])] at h
      obtain ⟨v, hv, hs⟩ := ih h
      exact ⟨v, hv, by rw [scanLease_skip env line rest hl]; exact hs⟩

/-- C5: The lease-file backend propagates the open error when the
lease file cannot be opened; otherwise it scans the lines in order,
skipping comment lines (leading '#') and lines without '=', answers
from the first line whose key is ROUTER (returning its parsed value),
and fails with the not-found error when no such line exists. -/
theorem c5_lease_file_scan (env : GwEnv) (iface : Iface) :
    (∀ msg, env.leaseOpen iface.index = .error msg →
        (getGatewaySystemdNetworkd env iface).1 = .error (.openFailed msg)) ∧
    (∀ lines, env.leaseOpen iface.index = .ok lines →
        lines.find? isRouterLine = none →
        (getGatewaySystemdNetworkd env iface).1 = .error .routerNotFound) ∧
    (∀ lines l, env.leaseOpen iface.index = .ok lines →
        lines.find? isRouterLine = some l →
        ∃ v, cut l '=' = some ("ROUTER", v) ∧
          (getGatewaySystemdNetworkd env iface).1 =
            (env.parseAddr v).mapError GwErr.parseFailed) := by
  refine ⟨fun msg h => ?_, fun lines h hf => ?_, fun lines l h hf => ?_⟩
  · simp [getGatewaySystemdNetworkd, h]
  · simp only [getGatewaySystemdNetworkd, h]
    exact scanLease_find_none env lines hf
  · simp only [getGatewaySystemdNetworkd, h]
    exact scanLease_find_some env lines l hf

/-- C5 witness: the three lease-backend outcomes at concrete files: an
unopenable file, a file without a ROUTER key, and a file whose first
ROUTER line (after a comment, an unrelated pair and a separator-free
line) carries 1.2.3.4. -/
theorem c5_lease_file_scan_witness :
    (getGatewaySystemdNetworkd gwEnvLease ⟨"eth7", 7⟩).1 =
      .error (.openFailed "open /run/systemd/netif/leases: no such file or directory") ∧
    (getGatewaySystemdNetworkd gwEnvLeaseNoRouter wBackup).1 = .error .routerNotFound ∧
    (getGatewaySystemdNetworkd gwEnvLease wBackup).1 = .ok ⟨[1, 2, 3, 4]⟩ := by
  refine ⟨(c5_lease_file_scan gwEnvLease ⟨"eth7", 7⟩).1
      "open /run/systemd/netif/leases: no such file or directory" rfl,
    (c5_lease_file_scan gwEnvLeaseNoRouter wBackup).2.1
      ["# lease", "ADDRESS=10.0.0.9", "junk"] rfl (by decide), ?_⟩
  obtain ⟨v, hv, hs⟩ :=
    (c5_lease_file_scan gwEnvLease wBackup).2.2
      ["# server address", "FOO=bar", "junk", "ROUTER=1.2.3.4", "ROUTER=9.9.9.9"]
      "ROUTER=1.2.3.4" rfl (by decide)
  have hcalc : cut "ROUTER=1.2.3.4" '=' = some ("ROUTER", "1.2.3.4") := by decide
  have hv2 := hv.symm.trans hcalc
  injection hv2 with hp2
  have hv3 : v = "1.2.3.4" := congrArg Prod.snd hp2
  rw [hv3] at hs
  exact hs.trans rfl

theorem part000_scanLease_eq (env : GwEnv) (lines : List String) :
    Part000.scanLease env lines = scanLease env lines := by
  induction lines with
  | nil => rfl
  | cons line rest ih =>
    unfold Part000.scanLease scanLease
    by_cases hsw : strStartsWith line "#"
    · simp [hsw, ih]
    · cases hcut : cut line '=' with
      | none => simp [hsw, hcut, ih]
      | some kv =>
        obtain ⟨k, v⟩ := kv
        by_cases hk : k = "ROUTER"
        · simp [hsw, hcut, hk]
        · simp [hsw, hcut, hk, ih]

theorem part000_scanDhcpcd_eq (env : GwEnv) (lines : List String) :
    Part000.scanDhcpcd env lines = scanDhcpcd env lines := by
  induction lines with
  | nil => rfl
  | cons line rest ih =>
    unfold Part000.scanDhcpcd scanDhcpcd
    cases hcut : cut line '=' with
    | none => simp [hcut, ih]
    | some kv =>
      obtain ⟨k, v⟩ := kv
      by_cases hk : k = "routers"
      · simp [hcut, hk]
      · simp [hcut, hk, ih]

theorem part000_getGatewaySystemdNetworkd_eq (env : GwEnv) (iface : Iface) :
    Part000.getGatewaySystemdNetworkd env iface =
      getGatewaySystemdNetworkd env iface := by
  cases h : env.leaseOpen iface.index with
  | error msg =>
    simp [Part000.getGatewaySystemdNetworkd, getGatewaySystemdNetworkd, h]
  | ok lines =>
    simp [Part000.getGatewaySystemdNetworkd, getGatewaySystemdNetworkd, h,
      part000_scanLease_eq]

theorem part000_getGatewayDhcpcd_eq (env : GwEnv) (iface : Iface) :
    Part000.getGatewayDhcpcd env iface = getGatewayDhcpcd env iface := by
  cases h : env.dhcpcdOutput iface.name with
  | error msg =>
    simp [Part000.getGatewayDhcpcd, getGatewayDhcpcd, h]
  | ok lines =>
    simp [Part000.getGatewayDhcpcd, getGatewayDhcpcd, h, part000_scanDhcpcd_eq]

theorem part000_getGateway_eq (env : GwEnv) (iface : Iface) :
    Part000.getGateway env iface = getGateway env iface := by
  by_cases h1 : env.systemdNetworkd
  · simp [Part000.getGateway, getGateway, h1, part000_getGatewaySystemdNetworkd_eq]
  · by_cases h2 : env.dhcpcd
    · simp [Part000.getGateway, getGateway, h1, h2, part000_getGatewayDhcpcd_eq]
    · simp [Part000.getGateway, getGateway, h1, h2]

theorem part000_parseOrGetGateway_eq (env : GwEnv) (val : String) (iface : Iface) :
    Part000.parseOrGetGateway env val iface = parseOrGetGateway env val iface := by
  by_cases hv : val = ""
  · simp [Part000.parseOrGetGateway, parseOrGetGateway, hv, part000_getGateway_eq]
  · cases hp : env.parseAddr val with
    | ok a => simp [Part000.parseOrGetGateway, parseOrGetGateway, hv, hp]
    | error msg =>
      simp [Part000.parseOrGetGateway, parseOrGetGateway, hv, hp,
        part000_getGateway_eq]

/-- C10: The four gateway-resolution functions of src/unnamed/part_000
are behaviorally equivalent to the functions of the same names in
src/main.go: same input and same environment (lease-source contents,
ParseAddr behavior, flags) give the same result, including backend
invocations. -/
theorem c10_part000_equivalence (env : GwEnv) (val : String) (iface : Iface) :
    Part000.parseOrGetGateway env val iface = parseOrGetGateway env val iface ∧
    Part000.getGateway env iface = getGateway env iface ∧
    Part000.getGatewaySystemdNetworkd env iface =
      getGatewaySystemdNetworkd env iface ∧
    Part000.getGatewayDhcpcd env iface = getGatewayDhcpcd env iface :=
  ⟨part000_parseOrGetGateway_eq env val iface, part000_getGateway_eq env iface,
   part000_getGatewaySystemdNetworkd_eq env iface,
   part000_getGatewayDhcpcd_eq env iface⟩

end GatewayFailover
